import Mathlib

/-!
Shallow embedding of the decal configurator core (`src/configurator.js`):
the finish preset table, the shared decal material and its mode controller
(`applyMaterialMode`, lines 315–357), the decal lifecycle
(`removeDecals` lines 197–203, `updateTexture` lines 208–284) and the two
public setters (`setFinish` lines 286–306, `setMode` lines 308–313).

Modelling conventions:
* All scalars (material parameters, color channels, coordinates) are `ℚ`,
  so every definition is executable and concrete states evaluate by
  `decide`. The one operation this cannot express exactly is the square
  root inside `Vector3.normalize`/`Vector3.length`; the embedding
  therefore takes the square-root primitive as an explicit function
  parameter `fsqrt : ℚ → ℚ`, and every geometric theorem is proved for
  every interpretation of `fsqrt` (both sides of each equation use the
  same primitive, just as the source uses the same `Math.sqrt`).
* External three.js services invoked by the configurator are embedded as
  data on the mesh: `Box3.setFromObject` becomes the mesh's stored
  `boundingBox`, and `Raycaster.intersectObject` becomes the mesh's
  deterministic `intersect` function from a ray to its sorted hit list.
* Textures and geometries are given identities (allocation counter
  `nextId`) so that attachment, disposal and reference retention across
  updates can be stated; `CanvasTexture(sourceCanvas)` becomes a fresh
  `Texture` recording the (possibly null) source canvas id.
* The decal `orientation` (a three.js `Euler` built by
  `helper.lookAt(position + n)`) is embedded by the world-space direction
  the decal's Euler faces: `lookAt` turns the helper's +Z axis toward the
  target, so the identity Euler of the fallback branch is the +Z axis and
  the hit branch's Euler faces the transformed unit normal `n`.
-/

namespace Craterflame

/-- Three-component vector, as three.js `Vector3` (rational scalars). -/
structure Vec3 where
  x : ℚ
  y : ℚ
  z : ℚ
deriving DecidableEq

/-- Componentwise sum, as `Vector3.add`. -/
def Vec3.add (a b : Vec3) : Vec3 :=
  ⟨a.x + b.x, a.y + b.y, a.z + b.z⟩

/-- Componentwise difference, as `Vector3.sub`. -/
def Vec3.sub (a b : Vec3) : Vec3 :=
  ⟨a.x - b.x, a.y - b.y, a.z - b.z⟩

/-- Squared Euclidean length, as `Vector3.lengthSq`. -/
def Vec3.lengthSq (v : Vec3) : ℚ :=
  v.x * v.x + v.y * v.y + v.z * v.z

/-- `Vector3.normalize`: divide each component by the length
`fsqrt (lengthSq v)`, where `fsqrt` is the ambient square-root
primitive. (Division by a zero length yields the zero vector in this
model; three.js produces NaN there, a case the configurator never
reaches.) -/
def Vec3.normalize (fsqrt : ℚ → ℚ) (v : Vec3) : Vec3 :=
  let l := fsqrt v.lengthSq
  ⟨v.x / l, v.y / l, v.z / l⟩

/-- Upper-left 3×3 block of the mesh's 4×4 `matrixWorld`; this block is all
`Vector3.transformDirection` reads. -/
structure Mat3 where
  m11 : ℚ
  m12 : ℚ
  m13 : ℚ
  m21 : ℚ
  m22 : ℚ
  m23 : ℚ
  m31 : ℚ
  m32 : ℚ
  m33 : ℚ
deriving DecidableEq

/-- Matrix–vector product of the 3×3 block. -/
def Mat3.mulVec (m : Mat3) (v : Vec3) : Vec3 :=
  ⟨m.m11 * v.x + m.m12 * v.y + m.m13 * v.z,
   m.m21 * v.x + m.m22 * v.y + m.m23 * v.z,
   m.m31 * v.x + m.m32 * v.y + m.m33 * v.z⟩

/-- `Vector3.transformDirection m`: apply the 3×3 block of `m`, then
normalize. -/
def Vec3.transformDirection (fsqrt : ℚ → ℚ) (v : Vec3) (m : Mat3) : Vec3 :=
  (m.mulVec v).normalize fsqrt

/-- Axis-aligned bounding box, as three.js `Box3`. -/
structure Box3 where
  min : Vec3
  max : Vec3
deriving DecidableEq

/-- `Box3.getCenter`: midpoint of min and max. -/
def Box3.getCenter (b : Box3) : Vec3 :=
  ⟨(b.min.x + b.max.x) / 2, (b.min.y + b.max.y) / 2, (b.min.z + b.max.z) / 2⟩

/-- `Box3.getSize`: extent `max - min`. -/
def Box3.getSize (b : Box3) : Vec3 :=
  b.max.sub b.min

/-- A ray, as three.js `Raycaster`'s origin and direction. -/
structure Ray where
  origin : Vec3
  direction : Vec3
deriving DecidableEq

/-- One raycast intersection: the hit point (world space) and the hit
face's normal (`hit.face.normal`, object space). -/
structure Hit where
  point : Vec3
  faceNormal : Vec3
deriving DecidableEq

/-- RGB color with rational channels, as three.js `Color`. -/
structure Color where
  r : ℚ
  g : ℚ
  b : ℚ
deriving DecidableEq

/-- `Color.multiplyScalar`: scale every channel (three.js does not clamp). -/
def Color.multiplyScalar (c : Color) (s : ℚ) : Color :=
  ⟨c.r * s, c.g * s, c.b * s⟩

/-- `new THREE.Color(0xffffff)`. -/
def Color.white : Color := ⟨1, 1, 1⟩

/-- The `base` record of a finish preset (lines 13–39). -/
structure BaseParams where
  roughness : ℚ
  metalness : ℚ
  normalScale : ℚ
deriving DecidableEq

/-- The `engraved` record of a finish preset (lines 13–39). -/
structure EngravedParams where
  roughness : ℚ
  metalness : ℚ
  normalScale : ℚ
  colorMult : ℚ
deriving DecidableEq

/-- One entry of `FINISH_PRESETS`. -/
structure FinishPreset where
  name : String
  base : BaseParams
  engraved : EngravedParams
deriving DecidableEq

/-- The preset table `FINISH_PRESETS` (configurator.js lines 13–39), as
the own-property lookup `finishId ↦ preset`: identifiers outside the five
keys have no own entry (`none`). Note that the JS property read
`FINISH_PRESETS[finishId]` additionally walks the prototype chain, so for
names of members inherited from `Object.prototype` (`toString`,
`constructor`, `__proto__`, …) it returns a truthy non-preset value
instead of `undefined`; that full read is modelled by `jsFinishLookup`
below, and the resulting `setFinish` behaviour by `setFinishTraced`. -/
def FINISH_PRESETS : String → Option FinishPreset
  | "powder" => some
      { name := "Powder-Coated Steel"
        base := { roughness := 0.55, metalness := 0.85, normalScale := 1.0 }
        engraved := { roughness := 0.68, metalness := 0.78, normalScale := 1.12, colorMult := 1.0 } }
  | "raw" => some
      { name := "Raw / Weathered Steel"
        base := { roughness := 0.65, metalness := 0.80, normalScale := 1.0 }
        engraved := { roughness := 0.78, metalness := 0.70, normalScale := 1.15, colorMult := 0.9 } }
  | "corten" => some
      { name := "Corten / Rusted Steel"
        base := { roughness := 0.75, metalness := 0.65, normalScale := 1.0 }
        engraved := { roughness := 0.88, metalness := 0.55, normalScale := 1.18, colorMult := 1.0 } }
  | "brushed" => some
      { name := "Brushed Stainless Steel"
        base := { roughness := 0.35, metalness := 0.95, normalScale := 1.0 }
        engraved := { roughness := 0.48, metalness := 0.88, normalScale := 1.10, colorMult := 1.0 } }
  | "painted" => some
      { name := "Painted / Matte Metal"
        base := { roughness := 0.70, metalness := 0.60, normalScale := 1.0 }
        engraved := { roughness := 0.82, metalness := 0.52, normalScale := 1.10, colorMult := 1.0 } }
  | _ => none

/-- A texture created by `new THREE.CanvasTexture(sourceCanvas)`: an
allocation identity plus the source canvas it was built from (`none` when
the call received `null`). `colorSpace`/`flipY` are set identically on
every texture the configurator creates and carry no claim-relevant
information, so they are not recorded. -/
structure Texture where
  id : Nat
  image : Option Nat
deriving DecidableEq

/-- The mutable fields of the shared `decalMaterial` that
`applyMaterialMode` writes: texture channels `map`/`alphaMap`, `color`,
`roughness`, `metalness` and the `needsUpdate` flag (constructor-fixed
fields like `transparent` are omitted). -/
structure DecalMaterial where
  map : Option Texture
  alphaMap : Option Texture
  color : Color
  roughness : ℚ
  metalness : ℚ
  needsUpdate : Bool
deriving DecidableEq

/-- The shared decal material as built by the module-level
`new THREE.MeshStandardMaterial({... color: 0xffffff})` (lines 43–51):
no maps, white color, standard-material default roughness 1 and
metalness 0. -/
def initialDecalMaterial : DecalMaterial :=
  { map := none, alphaMap := none, color := Color.white
    roughness := 1, metalness := 0, needsUpdate := false }

/-- The mutable fields of the front panel's `MeshStandardMaterial` that the
configurator reads or writes: `color`, `roughness`, `metalness`,
`normalScale` (`none` models a material whose `normalScale` field is
absent, the case the `if (frontPanelMesh.material.normalScale)` guard on
line 297 protects against). -/
structure PanelMaterial where
  color : Color
  roughness : ℚ
  metalness : ℚ
  normalScale : Option (ℚ × ℚ)
deriving DecidableEq

/-- The resolved front panel mesh: its material (possibly absent, as the
`frontPanelMesh.material` truthiness check on line 291 allows), and the
three geometric services the configurator consumes from three.js — its
world bounding box (`Box3.setFromObject`), its world matrix, and the
deterministic raycast `Raycaster.intersectObject(mesh, false)` returning
the distance-sorted hit list for a ray. -/
structure FrontPanel where
  material : Option PanelMaterial
  boundingBox : Box3
  matrixWorld : Mat3
  intersect : Ray → List Hit

/-- The placement frame `updateTexture` computes: decal center `position`,
the world direction `orientation` the decal's Euler faces (see the header
note on `lookAt`), the decal box size, and whether the fallback warning
`'Decal raycast failed, ...'` was emitted. -/
structure Placement where
  position : Vec3
  orientation : Vec3
  decalSize : Vec3
  warned : Bool
deriving DecidableEq

/-- Whole module-level state of `configurator.js` that the core operations
touch, plus allocation bookkeeping (`allocatedGeoms` / `disposedGeoms` /
`allocatedTexs` / `nextId`) used to state lifecycle claims: `sceneDecals`
is the list of decal-mesh geometry ids currently attached to the scene,
and `decalPlacement` the placement frame the current decal geometry was
generated from. -/
structure ConfigState where
  frontPanelMesh : Option FrontPanel
  decalMesh : Option Nat
  currentMode : String
  currentFinish : String
  activeTexture : Option Texture
  decalMaterial : DecalMaterial
  decalPlacement : Option Placement
  sceneDecals : List Nat
  allocatedGeoms : List Nat
  disposedGeoms : List Nat
  allocatedTexs : List Texture
  nextId : Nat

/-- Module state right after a model finished loading and a front panel was
resolved: no decal, mode `'printed'`, finish `'powder'` (lines 10–11), no
texture, the constructor-state shared material, nothing allocated yet. -/
def initState (fp : FrontPanel) : ConfigState :=
  { frontPanelMesh := some fp
    decalMesh := none
    currentMode := "printed"
    currentFinish := "powder"
    activeTexture := none
    decalMaterial := initialDecalMaterial
    decalPlacement := none
    sceneDecals := []
    allocatedGeoms := []
    disposedGeoms := []
    allocatedTexs := []
    nextId := 0 }

/-- Lines 317–320 of `applyMaterialMode`: `baseMat = frontPanelMesh ?
frontPanelMesh.material : null; baseColor = baseMat ? baseMat.color.clone()
: new THREE.Color(0xffffff)`. -/
def baseColorOf (s : ConfigState) : Color :=
  match s.frontPanelMesh with
  | some fp =>
      match fp.material with
      | some m => m.color
      | none => Color.white
  | none => Color.white

/-- `applyMaterialMode(texture)` (lines 315–357): recomputes every mutable
field of the shared decal material from the current mode, current finish
(`FINISH_PRESETS[currentFinish] || FINISH_PRESETS['powder']`, line 323) and
the base panel color. The engraved branch multiplies the base color by the
preset's `colorMult` only when that multiplier is truthy (nonzero) and
`!== 1.0`, exactly as line 337 does; every mode value other than
`'engraved'` takes the else (printed) branch, as the `if` on line 328
does. -/
def applyMaterialMode (s : ConfigState) (texture : Texture) : DecalMaterial :=
  let baseColor := baseColorOf s
  let finishPreset := (FINISH_PRESETS s.currentFinish).getD
    { name := "Powder-Coated Steel"
      base := { roughness := 0.55, metalness := 0.85, normalScale := 1.0 }
      engraved := { roughness := 0.68, metalness := 0.78, normalScale := 1.12, colorMult := 1.0 } }
  if s.currentMode = "engraved" then
    let p := finishPreset.engraved
    { map := none
      alphaMap := some texture
      color := if p.colorMult ≠ 0 ∧ p.colorMult ≠ 1.0
               then baseColor.multiplyScalar p.colorMult else baseColor
      roughness := p.roughness
      metalness := p.metalness
      needsUpdate := true }
  else
    { map := some texture
      alphaMap := none
      color := Color.white
      roughness := 0.4
      metalness := 0.0
      needsUpdate := true }

/-- `removeDecals()` (lines 197–203): if a decal mesh exists, remove it
from the scene, dispose its geometry, null the reference. -/
def removeDecals (s : ConfigState) : ConfigState :=
  match s.decalMesh with
  | some g =>
      { s with
        sceneDecals := s.sceneDecals.filter (fun x => x ≠ g)
        disposedGeoms := s.disposedGeoms ++ [g]
        decalMesh := none
        decalPlacement := none }
  | none => s

/-- The ray `updateTexture` casts (lines 223–244): origin = box center +
`offsetRel = (0.5·size.x, 0.25·size.y, 0)` + `(0, 0, size.z)`, direction =
toward the box center, normalized. -/
def placementRay (fsqrt : ℚ → ℚ) (fp : FrontPanel) : Ray :=
  let box := fp.boundingBox
  let center := box.getCenter
  let size := box.getSize
  let offsetRel : Vec3 := ⟨size.x * 0.50, size.y * 0.25, 0⟩
  let rayOrigin := (center.add offsetRel).add ⟨0, 0, size.z⟩
  { origin := rayOrigin, direction := (center.sub rayOrigin).normalize fsqrt }

/-- The surface-locator portion of `updateTexture` (lines 220–274): cast
`placementRay` at the front panel; on a hit, position = first hit's point
and the Euler faces `hit.face.normal` transformed through `matrixWorld`
and normalized (lines 257–269); on a miss, keep the default
offset-center position but push it `size.z / 2` along +Z (line 273), keep
the identity Euler (facing +Z), and warn. -/
def computePlacement (fsqrt : ℚ → ℚ) (fp : FrontPanel) : Placement :=
  let box := fp.boundingBox
  let center := box.getCenter
  let size := box.getSize
  let offsetRel : Vec3 := ⟨size.x * 0.50, size.y * 0.25, 0⟩
  let intersects := fp.intersect (placementRay fsqrt fp)
  let decalSize : Vec3 := ⟨size.x * 0.5915, size.y * 0.845, 0.2⟩
  match intersects with
  | hit :: _ =>
      let n := (hit.faceNormal.transformDirection fsqrt fp.matrixWorld).normalize fsqrt
      { position := hit.point, orientation := n, decalSize := decalSize, warned := false }
  | [] =>
      { position := ⟨(center.add offsetRel).x, (center.add offsetRel).y,
                     (center.add offsetRel).z + size.z / 2⟩
        orientation := ⟨0, 0, 1⟩
        decalSize := decalSize
        warned := true }

/-- `updateTexture(sourceCanvas)` (lines 208–284): no-op without a front
panel; otherwise remove the previous decal, allocate a fresh
`CanvasTexture` from the (possibly null) source canvas and store it as
`activeTexture`, compute the placement, reconfigure the shared material via
`applyMaterialMode`, then allocate the `DecalGeometry` built from the
placement, wrap it in the new decal mesh and attach it to the scene. -/
def updateTexture (fsqrt : ℚ → ℚ) (sourceCanvas : Option Nat) (s : ConfigState) : ConfigState :=
  match s.frontPanelMesh with
  | none => s
  | some fp =>
      let s1 := removeDecals s
      let texture : Texture := { id := s1.nextId, image := sourceCanvas }
      let s2 := { s1 with
        activeTexture := some texture
        allocatedTexs := s1.allocatedTexs ++ [texture]
        nextId := s1.nextId + 1 }
      let placement := computePlacement fsqrt fp
      let s3 := { s2 with decalMaterial := applyMaterialMode s2 texture }
      let geomId := s3.nextId
      { s3 with
        allocatedGeoms := s3.allocatedGeoms ++ [geomId]
        decalMesh := some geomId
        decalPlacement := some placement
        sceneDecals := s3.sceneDecals ++ [geomId]
        nextId := geomId + 1 }

/-- `setFinish(finishId)` (lines 286–306) on the own-key lookup: ids with
no own entry return before any mutation; known ids are stored, the base
panel material's roughness, metalness and (when present) normalScale are
set from the preset's `base` record, and the decal material logic is
re-applied when a decal mesh and an active texture exist. Identifiers
naming inherited `Object.prototype` members pass the JS guard on line 287
instead of returning; that path (store + `TypeError`) is modelled by
`setFinishTraced` below. -/
def setFinish (finishId : String) (s : ConfigState) : ConfigState :=
  match FINISH_PRESETS finishId with
  | none => s
  | some preset =>
      let s1 := { s with currentFinish := finishId }
      let s2 :=
        match s1.frontPanelMesh with
        | some fp =>
            match fp.material with
            | some m =>
                let b := preset.base
                let m1 : PanelMaterial :=
                  { m with
                    roughness := b.roughness
                    metalness := b.metalness
                    normalScale := (match m.normalScale with
                      | some _ => some (b.normalScale, b.normalScale)
                      | none => none) }
                { s1 with frontPanelMesh := some { fp with material := some m1 } }
            | none => s1
        | none => s1
      match s2.decalMesh, s2.activeTexture with
      | some _, some t => { s2 with decalMaterial := applyMaterialMode s2 t }
      | _, _ => s2

/-- `setMode(mode)` (lines 308–313): store the mode unconditionally, then
re-apply the material logic when a decal mesh and an active texture
exist. -/
def setMode (mode : String) (s : ConfigState) : ConfigState :=
  let s1 := { s with currentMode := mode }
  match s1.decalMesh, s1.activeTexture with
  | some _, some t => { s1 with decalMaterial := applyMaterialMode s1 t }
  | _, _ => s1

/-- One external event of the core: a mode change, a finish change, or a
texture update (decal replacement). -/
inductive Event where
  | mode (m : String) : Event
  | finish (f : String) : Event
  | texture (sourceCanvas : Option Nat) : Event

/-- Dispatch one event to the corresponding public operation. -/
def stepEvent (fsqrt : ℚ → ℚ) : Event → ConfigState → ConfigState
  | Event.mode m, s => setMode m s
  | Event.finish f, s => setFinish f s
  | Event.texture c, s => updateTexture fsqrt c s

/-- Run a sequence of external events left to right. -/
def runEvents (fsqrt : ℚ → ℚ) (events : List Event) (s : ConfigState) : ConfigState :=
  events.foldl (fun st e => stepEvent fsqrt e st) s

/-! ### Concrete demonstration data

One executable interpretation of the square-root primitive and a few
concrete meshes/states, used to evaluate the embedded operations at
concrete inputs. -/

/-- An executable interpretation of the square-root primitive: exact on
rationals whose numerator and denominator are perfect squares (which
covers every concrete evaluation below, all of unit length). -/
def qSqrt (q : ℚ) : ℚ :=
  (Nat.sqrt q.num.toNat : ℚ) / (Nat.sqrt q.den : ℚ)

/-- A concrete front-panel material: mid-grey-ish color, some roughness. -/
def demoPanelMaterial : PanelMaterial :=
  { color := ⟨1/2, 1/3, 1⟩, roughness := 1/2, metalness := 1/2, normalScale := some (1, 1) }

/-- The `raw` entry of `FINISH_PRESETS`, spelled out. -/
def rawPreset : FinishPreset :=
  { name := "Raw / Weathered Steel"
    base := { roughness := 0.65, metalness := 0.80, normalScale := 1.0 }
    engraved := { roughness := 0.78, metalness := 0.70, normalScale := 1.15, colorMult := 0.9 } }

/-- The `corten` entry of `FINISH_PRESETS`, spelled out. -/
def cortenPreset : FinishPreset :=
  { name := "Corten / Rusted Steel"
    base := { roughness := 0.75, metalness := 0.65, normalScale := 1.0 }
    engraved := { roughness := 0.88, metalness := 0.55, normalScale := 1.18, colorMult := 1.0 } }

/-- Quarter-turn rotation about the y axis: sends the local +Z direction to
world +X. -/
def quarterTurnY : Mat3 :=
  { m11 := 0, m12 := 0, m13 := 1
    m21 := 0, m22 := 1, m23 := 0
    m31 := -1, m32 := 0, m33 := 0 }

/-- The identity world matrix. -/
def identityMat : Mat3 :=
  { m11 := 1, m12 := 0, m13 := 0
    m21 := 0, m22 := 1, m23 := 0
    m31 := 0, m32 := 0, m33 := 1 }

/-- A concrete raycast hit: point on the panel, local face normal +Z. -/
def demoHit : Hit := { point := ⟨1, 3/2, 2⟩, faceNormal := ⟨0, 0, 1⟩ }

/-- A front panel (rotated a quarter turn about y) whose raycast always
reports exactly one hit, `demoHit`. -/
def demoHitPanel : FrontPanel :=
  { material := some demoPanelMaterial
    boundingBox := { min := ⟨0, 0, 0⟩, max := ⟨2, 2, 2⟩ }
    matrixWorld := quarterTurnY
    intersect := fun _ => [demoHit] }

/-- A degenerate front panel whose raycast reports no hit at all. -/
def demoMissPanel : FrontPanel :=
  { material := some demoPanelMaterial
    boundingBox := { min := ⟨0, 0, 0⟩, max := ⟨2, 2, 2⟩ }
    matrixWorld := identityMat
    intersect := fun _ => [] }

/-- The texture installed by the first texture update in the demo state. -/
def demoTexture : Texture := { id := 0, image := some 7 }

/-- A concrete mid-session state: front panel resolved, one decal (geometry
id 1) attached, a previously uploaded non-null texture active, finish
`raw`, mode `printed`. -/
def demoState : ConfigState :=
  { frontPanelMesh := some demoHitPanel
    decalMesh := some 1
    currentMode := "printed"
    currentFinish := "raw"
    activeTexture := some demoTexture
    decalMaterial := initialDecalMaterial
    decalPlacement := none
    sceneDecals := [1]
    allocatedGeoms := [1]
    disposedGeoms := []
    allocatedTexs := [demoTexture]
    nextId := 2 }

/-- `demoState` in engraved mode. -/
def demoEngravedState : ConfigState :=
  { demoState with currentMode := "engraved" }

/-- Whether `finishId` names a member every plain JS object inherits from
`Object.prototype`; for these `FINISH_PRESETS[finishId]` is truthy even
though the table has no such key. -/
def inheritedObjectMember (finishId : String) : Bool :=
  finishId = "constructor" || finishId = "hasOwnProperty" ||
  finishId = "isPrototypeOf" || finishId = "propertyIsEnumerable" ||
  finishId = "toLocaleString" || finishId = "toString" ||
  finishId = "valueOf" || finishId = "__proto__" ||
  finishId = "__defineGetter__" || finishId = "__defineSetter__" ||
  finishId = "__lookupGetter__" || finishId = "__lookupSetter__"

/-- Result of the JS property read `FINISH_PRESETS[finishId]`: an own
preset entry, a truthy member inherited from `Object.prototype` (which
has neither a `base` nor an `engraved` property), or `undefined`. -/
inductive JsLookup where
  | preset (p : FinishPreset) : JsLookup
  | inherited : JsLookup
  | undef : JsLookup
deriving DecidableEq

/-- The full JS property read `FINISH_PRESETS[finishId]`: own keys first,
then the `Object.prototype` members, else `undefined`. -/
def jsFinishLookup (finishId : String) : JsLookup :=
  match FINISH_PRESETS finishId with
  | some p => JsLookup.preset p
  | none =>
      if inheritedObjectMember finishId then JsLookup.inherited else JsLookup.undef

/-- The partial write `applyMaterialMode` performs before throwing when
the looked-up "preset" is an inherited junk member and the current mode is
`engraved`: line 326 (`needsUpdate`), lines 332–333 (the two texture
channels) and line 336 (the color copy) execute, then reading
`p.colorMult` on line 337 throws the `TypeError` (`p` is `undefined`, the
junk member has no `engraved` record), so roughness and metalness keep
their previous values. -/
def engravedJunkPartialWrite (s : ConfigState) (texture : Texture) : DecalMaterial :=
  { s.decalMaterial with
    map := none
    alphaMap := some texture
    color := baseColorOf s
    needsUpdate := true }

/-- Continuation of `setFinishTraced` past a skipped base-panel block (no
resolved panel material): the decal block (lines 303–305) re-applies the
material when a decal mesh and an active texture exist. With the junk
inherited "preset", line 323's `FINISH_PRESETS[currentFinish] ||
FINISH_PRESETS['powder']` keeps the truthy junk value; the printed branch
never reads it and completes normally (it agrees with `applyMaterialMode`,
whose powder fallback the printed branch equally ignores), while the
engraved branch performs the partial write of lines 326–336 and throws. -/
def setFinishTracedDecalStep (s1 : ConfigState) : ConfigState × Bool :=
  match s1.decalMesh, s1.activeTexture with
  | some _, some t =>
      if s1.currentMode = "engraved" then
        ({ s1 with decalMaterial := engravedJunkPartialWrite s1 t }, true)
      else
        ({ s1 with decalMaterial := applyMaterialMode s1 t }, false)
  | _, _ => (s1, false)

/-- `setFinish(finishId)` (lines 286–306) under the full JS property-read
semantics, paired with whether the call throws a `TypeError`. An
`undefined` lookup is the silent early return of line 287. An own key
behaves exactly as `setFinish` and completes normally. A truthy inherited
member passes the guard: line 288 stores the identifier, then the
base-panel block reads `FINISH_PRESETS[currentFinish].base` (= `undefined`
on the junk member) and throws a `TypeError` at line 293
(`preset.roughness`) whenever a front panel with a material is resolved —
leaving the stored identifier already mutated; without a resolved panel
material the block is skipped and the decal block runs
(`setFinishTracedDecalStep`). -/
def setFinishTraced (finishId : String) (s : ConfigState) : ConfigState × Bool :=
  match jsFinishLookup finishId with
  | JsLookup.undef => (s, false)
  | JsLookup.preset _ => (setFinish finishId s, false)
  | JsLookup.inherited =>
      let s1 := { s with currentFinish := finishId }
      match s1.frontPanelMesh with
      | some fp =>
          match fp.material with
          | some _ => (s1, true)
          | none => setFinishTracedDecalStep s1
      | none => setFinishTracedDecalStep s1

/-! ### Lifecycle invariant -/

/-- Resource bookkeeping invariant maintained by every public operation:
the scene holds exactly the (at most one) current decal; every allocated
geometry is either the current one or disposed; the current geometry is
never disposed; ids grow below the allocation counter; and the shared
material's texture channels only ever reference the active texture. -/
structure GoodState (s : ConfigState) : Prop where
  scene_iff : ∀ g, g ∈ s.sceneDecals ↔ s.decalMesh = some g
  scene_len : s.sceneDecals.length ≤ 1
  geom_account : ∀ g ∈ s.allocatedGeoms, s.decalMesh = some g ∨ g ∈ s.disposedGeoms
  current_fresh : ∀ g, s.decalMesh = some g → g ∉ s.disposedGeoms
  geom_lt : ∀ g ∈ s.allocatedGeoms, g < s.nextId
  disposed_lt : ∀ g ∈ s.disposedGeoms, g < s.nextId
  current_alloc : ∀ g, s.decalMesh = some g → g ∈ s.allocatedGeoms
  tex_lt : ∀ t ∈ s.allocatedTexs, t.id < s.nextId
  map_active : ∀ t, s.decalMaterial.map = some t → s.activeTexture = some t
  alpha_active : ∀ t, s.decalMaterial.alphaMap = some t → s.activeTexture = some t

/-- The two texture channels `applyMaterialMode` writes hold nothing but
the texture it was invoked with. -/
lemma applyMaterialMode_channels (s : ConfigState) (t : Texture) :
    ((applyMaterialMode s t).map = none ∨ (applyMaterialMode s t).map = some t) ∧
    ((applyMaterialMode s t).alphaMap = none ∨ (applyMaterialMode s t).alphaMap = some t) := by
  unfold applyMaterialMode
  dsimp only
  split <;> simp

/-- With no current decal the invariant forces an empty scene. -/
lemma scene_nil_of_none (s : ConfigState) (h : GoodState s)
    (hd : s.decalMesh = none) : s.sceneDecals = [] := by
  rw [List.eq_nil_iff_forall_not_mem]
  intro g hg
  have hsome := (h.scene_iff g).mp hg
  rw [hd] at hsome
  exact Option.noConfusion hsome

/-- With a current decal `g0` the invariant makes removing `g0` empty the
scene. -/
lemma scene_filter_nil (s : ConfigState) (h : GoodState s) (g0 : Nat)
    (hd : s.decalMesh = some g0) :
    s.sceneDecals.filter (fun x => x ≠ g0) = [] := by
  rw [List.eq_nil_iff_forall_not_mem]
  intro g hg
  rw [List.mem_filter] at hg
  have hsome := (h.scene_iff g).mp hg.1
  rw [hd] at hsome
  injection hsome with he
  have := hg.2
  simp [he] at this

/-- A state whose lifecycle-relevant fields agree with those of a good
state, and whose material channels reference only its own active texture,
is itself good. -/
lemma GoodState.mk_of (s s2 : ConfigState) (h : GoodState s)
    (hd : s2.decalMesh = s.decalMesh) (ht : s2.activeTexture = s.activeTexture)
    (hsc : s2.sceneDecals = s.sceneDecals)
    (hag : s2.allocatedGeoms = s.allocatedGeoms)
    (hdg : s2.disposedGeoms = s.disposedGeoms)
    (hat : s2.allocatedTexs = s.allocatedTexs)
    (hn : s2.nextId = s.nextId)
    (hmap : ∀ t2, s2.decalMaterial.map = some t2 → s2.activeTexture = some t2)
    (halpha : ∀ t2, s2.decalMaterial.alphaMap = some t2 → s2.activeTexture = some t2) :
    GoodState s2 := by
  refine ⟨?_, ?_, ?_, ?_, ?_, ?_, ?_, ?_, hmap, halpha⟩
  · rw [hsc, hd]; exact h.scene_iff
  · rw [hsc]; exact h.scene_len
  · rw [hag, hd, hdg]; exact h.geom_account
  · rw [hd, hdg]; exact h.current_fresh
  · rw [hag, hn]; exact h.geom_lt
  · rw [hdg, hn]; exact h.disposed_lt
  · rw [hd, hag]; exact h.current_alloc
  · rw [hat, hn]; exact h.tex_lt

/-- `setMode` preserves the lifecycle invariant. -/
lemma good_setMode (m : String) (s : ConfigState) (h : GoodState s) :
    GoodState (setMode m s) := by
  unfold setMode
  dsimp only
  rcases hd : s.decalMesh with _ | g <;> rcases ht : s.activeTexture with _ | t <;>
    dsimp only
  · exact GoodState.mk_of s _ h hd.symm ht.symm rfl rfl rfl rfl rfl
      (fun t2 h2 => by rw [← ht]; exact h.map_active t2 h2)
      (fun t2 h2 => by rw [← ht]; exact h.alpha_active t2 h2)
  · exact GoodState.mk_of s _ h hd.symm ht.symm rfl rfl rfl rfl rfl
      (fun t2 h2 => by rw [← ht]; exact h.map_active t2 h2)
      (fun t2 h2 => by rw [← ht]; exact h.alpha_active t2 h2)
  · exact GoodState.mk_of s _ h hd.symm ht.symm rfl rfl rfl rfl rfl
      (fun t2 h2 => by rw [← ht]; exact h.map_active t2 h2)
      (fun t2 h2 => by rw [← ht]; exact h.alpha_active t2 h2)
  · refine GoodState.mk_of s _ h hd.symm ht.symm rfl rfl rfl rfl rfl ?_ ?_
    · intro t2 h2
      dsimp only at h2
      rcases (applyMaterialMode_channels _ t).1 with hnone | hsome
      · rw [hnone] at h2; exact Option.noConfusion h2
      · rw [hsome] at h2; injection h2 with he; rw [← he]
    · intro t2 h2
      dsimp only at h2
      rcases (applyMaterialMode_channels _ t).2 with hnone | hsome
      · rw [hnone] at h2; exact Option.noConfusion h2
      · rw [hsome] at h2; injection h2 with he; rw [← he]

/-- `setFinish` preserves the lifecycle invariant. -/
lemma good_setFinish (f : String) (s : ConfigState) (h : GoodState s) :
    GoodState (setFinish f s) := by
  unfold setFinish
  rcases hF : FINISH_PRESETS f with _ | p
  · exact h
  dsimp only
  rcases hfp : s.frontPanelMesh with _ | fp
  all_goals try dsimp only
  all_goals try (rcases hpm : fp.material with _ | pm <;> try dsimp only)
  all_goals
    rcases hd : s.decalMesh with _ | g <;> rcases ht : s.activeTexture with _ | t <;>
      try dsimp only
  all_goals
    refine GoodState.mk_of s _ h hd.symm ht.symm rfl rfl rfl rfl rfl ?_ ?_
  all_goals
    first
    | exact fun t2 h2 => by rw [← ht]; exact h.map_active t2 h2
    | exact fun t2 h2 => by rw [← ht]; exact h.alpha_active t2 h2
    | (intro t2 h2
       dsimp only at h2
       first
       | (rcases (applyMaterialMode_channels _ t).1 with hnone | hsome
          · rw [hnone] at h2; exact Option.noConfusion h2
          · rw [hsome] at h2; injection h2 with he; rw [← he])
       | (rcases (applyMaterialMode_channels _ t).2 with hnone | hsome
          · rw [hnone] at h2; exact Option.noConfusion h2
          · rw [hsome] at h2; injection h2 with he; rw [← he]))

/-- `updateTexture` preserves the lifecycle invariant. -/
lemma good_updateTexture (fsqrt : ℚ → ℚ) (c : Option Nat) (s : ConfigState)
    (h : GoodState s) : GoodState (updateTexture fsqrt c s) := by
  unfold updateTexture
  rcases hfp : s.frontPanelMesh with _ | fp
  · exact h
  dsimp only
  rcases hd : s.decalMesh with _ | g0
  · -- no previous decal: removeDecals is the identity on this state
    have hscene : s.sceneDecals = [] := scene_nil_of_none s h hd
    rw [removeDecals, hd]
    dsimp only
    refine ⟨?_, ?_, ?_, ?_, ?_, ?_, ?_, ?_, ?_, ?_⟩
    · intro g
      dsimp only
      simp only [List.mem_append, hscene, List.not_mem_nil, List.mem_singleton,
        false_or, Option.some.injEq]
      exact eq_comm
    · dsimp only
      simp [hscene]
    · intro g hg
      dsimp only at hg ⊢
      rcases List.mem_append.mp hg with hold | hnew
      · rcases h.geom_account g hold with hcur | hdisp
        · rw [hd] at hcur; exact Option.noConfusion hcur
        · exact Or.inr hdisp
      · left
        rw [List.mem_singleton.mp hnew]
    · intro g hg hmem
      dsimp only at hg hmem
      injection hg with he
      have := h.disposed_lt g hmem
      omega
    · intro g hg
      dsimp only at hg ⊢
      rcases List.mem_append.mp hg with hold | hnew
      · have := h.geom_lt g hold; omega
      · have := List.mem_singleton.mp hnew; omega
    · intro g hg
      dsimp only at hg ⊢
      have := h.disposed_lt g hg; omega
    · intro g hg
      dsimp only at hg ⊢
      injection hg with he
      subst he
      exact List.mem_append.mpr (Or.inr (List.mem_singleton.mpr rfl))
    · intro t ht
      dsimp only at ht ⊢
      rcases List.mem_append.mp ht with hold | hnew
      · have := h.tex_lt t hold; omega
      · have := List.mem_singleton.mp hnew
        subst this
        dsimp only
        omega
    · intro t2 ht2
      dsimp only at ht2 ⊢
      rcases (applyMaterialMode_channels _ _).1 with hn | hs
      · rw [hn] at ht2; exact Option.noConfusion ht2
      · rw [hs] at ht2; injection ht2 with he; rw [← he]
    · intro t2 ht2
      dsimp only at ht2 ⊢
      rcases (applyMaterialMode_channels _ _).2 with hn | hs
      · rw [hn] at ht2; exact Option.noConfusion ht2
      · rw [hs] at ht2; injection ht2 with he; rw [← he]
  · -- a previous decal g0 is removed and disposed first
    have hg0lt : g0 < s.nextId := h.geom_lt g0 (h.current_alloc g0 hd)
    have hfil : s.sceneDecals.filter (fun x => x ≠ g0) = [] :=
      scene_filter_nil s h g0 hd
    rw [removeDecals, hd]
    dsimp only
    refine ⟨?_, ?_, ?_, ?_, ?_, ?_, ?_, ?_, ?_, ?_⟩
    · intro g
      dsimp only
      simp only [List.mem_append, hfil, List.not_mem_nil, List.mem_singleton,
        false_or, Option.some.injEq]
      exact eq_comm
    · dsimp only
      simp [hfil]
      intro a ha
      have := (h.scene_iff a).mp ha
      rw [hd] at this
      injection this with he
      exact he.symm
    · intro g hg
      dsimp only at hg ⊢
      rcases List.mem_append.mp hg with hold | hnew
      · rcases h.geom_account g hold with hcur | hdisp
        · rw [hd] at hcur
          injection hcur with he
          right
          rw [← he]
          exact List.mem_append.mpr (Or.inr (List.mem_singleton.mpr rfl))
        · exact Or.inr (List.mem_append.mpr (Or.inl hdisp))
      · left
        rw [List.mem_singleton.mp hnew]
    · intro g hg hmem
      dsimp only at hg hmem
      injection hg with he
      rcases List.mem_append.mp hmem with hold | hnew
      · have := h.disposed_lt g hold; omega
      · have := List.mem_singleton.mp hnew; omega
    · intro g hg
      dsimp only at hg ⊢
      rcases List.mem_append.mp hg with hold | hnew
      · have := h.geom_lt g hold; omega
      · have := List.mem_singleton.mp hnew; omega
    · intro g hg
      dsimp only at hg ⊢
      rcases List.mem_append.mp hg with hold | hnew
      · have := h.disposed_lt g hold; omega
      · have := List.mem_singleton.mp hnew; omega
    · intro g hg
      dsimp only at hg ⊢
      injection hg with he
      subst he
      exact List.mem_append.mpr (Or.inr (List.mem_singleton.mpr rfl))
    · intro t ht
      dsimp only at ht ⊢
      rcases List.mem_append.mp ht with hold | hnew
      · have := h.tex_lt t hold; omega
      · have := List.mem_singleton.mp hnew
        subst this
        dsimp only
        omega
    · intro t2 ht2
      dsimp only at ht2 ⊢
      rcases (applyMaterialMode_channels _ _).1 with hn | hs
      · rw [hn] at ht2; exact Option.noConfusion ht2
      · rw [hs] at ht2; injection ht2 with he; rw [← he]
    · intro t2 ht2
      dsimp only at ht2 ⊢
      rcases (applyMaterialMode_channels _ _).2 with hn | hs
      · rw [hn] at ht2; exact Option.noConfusion ht2
      · rw [hs] at ht2; injection ht2 with he; rw [← he]

/-- Each external event preserves the lifecycle invariant. -/
lemma good_stepEvent (fsqrt : ℚ → ℚ) (e : Event) (s : ConfigState)
    (h : GoodState s) : GoodState (stepEvent fsqrt e s) := by
  cases e with
  | mode m => exact good_setMode m s h
  | finish f => exact good_setFinish f s h
  | texture c => exact good_updateTexture fsqrt c s h

/-- The lifecycle invariant is preserved across any event sequence. -/
lemma good_runEvents (fsqrt : ℚ → ℚ) (events : List Event) (s : ConfigState)
    (h : GoodState s) : GoodState (runEvents fsqrt events s) := by
  induction events generalizing s with
  | nil => exact h
  | cons e es ih => exact ih (stepEvent fsqrt e s) (good_stepEvent fsqrt e s h)

/-- The freshly initialized module state satisfies the lifecycle
invariant. -/
lemma good_initState (fp : FrontPanel) : GoodState (initState fp) := by
  refine ⟨?_, ?_, ?_, ?_, ?_, ?_, ?_, ?_, ?_, ?_⟩ <;>
    simp [initState, initialDecalMaterial]

/-! ### Claim theorems -/

/-- Counterexample to C6 as stated: `toString` is not a key of the preset
table, yet `setFinish('toString')` is not silently ignored — the truthy
prototype-chain lookup passes the line-287 guard, the identifier is
stored over the previous finish, and a `TypeError` is thrown at line 293
in the concrete state `demoState`, whose front panel material is
resolved. -/
theorem C6_counterexample :
    FINISH_PRESETS "toString" = none ∧
    (setFinishTraced "toString" demoState).2 = true ∧
    (setFinishTraced "toString" demoState).1.currentFinish ≠ demoState.currentFinish :=
  ⟨rfl, rfl, by decide⟩

/-- C6 (amended): under the JS property-read semantics of the preset
lookup, a finish identifier that is neither a preset key nor the name of a
member inherited from `Object.prototype` is silently ignored — no throw,
the stored finish identifier retained, no material modified, the whole
state unchanged. An identifier naming an inherited member (`toString`,
`constructor`, `__proto__`, …) instead passes the line-287 guard: the
identifier is stored, and whenever a front panel with a material is
resolved the call throws a `TypeError` at line 293, leaving the stored
identifier mutated and the materials untouched. -/
theorem C6_prototype_lookup (f : String) (s : ConfigState)
    (fp : FrontPanel) (pm : PanelMaterial)
    (hinh : jsFinishLookup f = JsLookup.inherited)
    (hfp : s.frontPanelMesh = some fp) (hpm : fp.material = some pm) :
    setFinishTraced f s = ({ s with currentFinish := f }, true) ∧
    (∀ f2, jsFinishLookup f2 = JsLookup.undef → setFinishTraced f2 s = (s, false)) := by
  constructor
  · unfold setFinishTraced
    rw [hinh]
    dsimp only
    rw [hfp]
    dsimp only
    rw [hpm]
  · intro f2 h2
    unfold setFinishTraced
    rw [h2]

/-- Witness for C6 (amended) at the inherited member name `toString` and
the concrete state `demoState`. -/
theorem C6_witness :
    (jsFinishLookup "toString" = JsLookup.inherited ∧
     demoState.frontPanelMesh = some demoHitPanel ∧
     demoHitPanel.material = some demoPanelMaterial) ∧
    (setFinishTraced "toString" demoState =
       ({ demoState with currentFinish := "toString" }, true) ∧
     (∀ f2, jsFinishLookup f2 = JsLookup.undef →
        setFinishTraced f2 demoState = (demoState, false))) :=
  ⟨⟨rfl, rfl, rfl⟩,
   C6_prototype_lookup "toString" demoState demoHitPanel demoPanelMaterial rfl rfl rfl⟩

/-- C10: `setMode` stores its argument without validation, and
`applyMaterialMode` branches only on equality of the stored mode with
`engraved`: for every mode value other than `engraved`, the stored mode
becomes that value, and the decal material is configured exactly as in
printed mode (color map = texture, alpha map null, white color,
roughness 0.4, metalness 0). -/
theorem C10_nonenum_mode_prints (s : ConfigState) (t : Texture) (m : String)
    (h : m ≠ "engraved") :
    (setMode m s).currentMode = m ∧
    applyMaterialMode { s with currentMode := m } t =
      applyMaterialMode { s with currentMode := "printed" } t ∧
    applyMaterialMode { s with currentMode := m } t =
      { map := some t, alphaMap := none, color := Color.white
        roughness := 0.4, metalness := 0.0, needsUpdate := true } := by
  refine ⟨?_, ?_, ?_⟩
  · unfold setMode
    dsimp only
    split <;> rfl
  · simp [applyMaterialMode, h]
  · simp [applyMaterialMode, h]

/-- Witness for C10 at the out-of-enum mode value `glitter`. -/
theorem C10_witness :
    "glitter" ≠ "engraved" ∧
    ((setMode "glitter" demoState).currentMode = "glitter" ∧
     applyMaterialMode { demoState with currentMode := "glitter" } demoTexture =
       applyMaterialMode { demoState with currentMode := "printed" } demoTexture ∧
     applyMaterialMode { demoState with currentMode := "glitter" } demoTexture =
       { map := some demoTexture, alphaMap := none, color := Color.white
         roughness := 0.4, metalness := 0.0, needsUpdate := true }) :=
  ⟨by decide, C10_nonenum_mode_prints demoState demoTexture "glitter" (by decide)⟩

/-- Counterexample to C7 as stated: the shipped `corten` (rusted) preset
has decal colorMultiplier exactly 1.0, not strictly less than 1.0. -/
theorem C7_counterexample :
    FINISH_PRESETS "corten" = some cortenPreset ∧
    ¬ cortenPreset.engraved.colorMult < 1 :=
  ⟨rfl, by norm_num [cortenPreset]⟩

/-- C7 (amended): of the weathered (`raw`) and rusted (`corten`) presets,
only `raw` darkens — its decal colorMultiplier 0.9 is strictly less
than 1.0, and in engraved mode under `raw` the decal base color equals the
panel base color × 0.9, strictly darker in every channel where the panel
color is positive; `corten`'s multiplier is exactly 1.0. -/
theorem C7_raw_darkens (s : ConfigState) (t : Texture) (fp : FrontPanel)
    (pm : PanelMaterial) (hf : s.currentFinish = "raw")
    (hm : s.currentMode = "engraved") (hfp : s.frontPanelMesh = some fp)
    (hpm : fp.material = some pm) :
    rawPreset.engraved.colorMult < 1 ∧
    cortenPreset.engraved.colorMult = 1 ∧
    (applyMaterialMode s t).color = pm.color.multiplyScalar rawPreset.engraved.colorMult ∧
    (0 < pm.color.r → (applyMaterialMode s t).color.r < pm.color.r) ∧
    (0 < pm.color.g → (applyMaterialMode s t).color.g < pm.color.g) ∧
    (0 < pm.color.b → (applyMaterialMode s t).color.b < pm.color.b) := by
  have h9 : ((0.9 : ℚ) ≠ 0 ∧ (0.9 : ℚ) ≠ 1.0) := by norm_num
  have hcolor : (applyMaterialMode s t).color = pm.color.multiplyScalar (0.9 : ℚ) := by
    unfold applyMaterialMode baseColorOf
    rw [hf, hm, hfp]
    simp [FINISH_PRESETS, hpm, h9]
  have hlt : (0.9 : ℚ) < 1 := by norm_num
  refine ⟨by norm_num [rawPreset], by norm_num [cortenPreset], ?_, ?_, ?_, ?_⟩
  · rw [hcolor]; rfl
  · intro hr; rw [hcolor]
    show pm.color.r * (0.9 : ℚ) < pm.color.r
    nlinarith [hr, hlt]
  · intro hg; rw [hcolor]
    show pm.color.g * (0.9 : ℚ) < pm.color.g
    nlinarith [hg, hlt]
  · intro hb; rw [hcolor]
    show pm.color.b * (0.9 : ℚ) < pm.color.b
    nlinarith [hb, hlt]

/-- Witness for C7 at the concrete engraved/raw state `demoEngravedState`
and the panel material `demoPanelMaterial`. -/
theorem C7_witness :
    (demoEngravedState.currentFinish = "raw" ∧
     demoEngravedState.currentMode = "engraved" ∧
     demoEngravedState.frontPanelMesh = some demoHitPanel ∧
     demoHitPanel.material = some demoPanelMaterial) ∧
    (rawPreset.engraved.colorMult < 1 ∧
     cortenPreset.engraved.colorMult = 1 ∧
     (applyMaterialMode demoEngravedState demoTexture).color =
       demoPanelMaterial.color.multiplyScalar rawPreset.engraved.colorMult ∧
     (0 < demoPanelMaterial.color.r →
       (applyMaterialMode demoEngravedState demoTexture).color.r < demoPanelMaterial.color.r) ∧
     (0 < demoPanelMaterial.color.g →
       (applyMaterialMode demoEngravedState demoTexture).color.g < demoPanelMaterial.color.g) ∧
     (0 < demoPanelMaterial.color.b →
       (applyMaterialMode demoEngravedState demoTexture).color.b < demoPanelMaterial.color.b)) :=
  ⟨⟨rfl, rfl, rfl, rfl⟩,
   C7_raw_darkens demoEngravedState demoTexture demoHitPanel demoPanelMaterial rfl rfl rfl rfl⟩

/-- Counterexample to C4 as stated: in the concrete state `demoState`,
whose active texture is non-null, calling `updateTexture` with a null
source does not clear the decal slot — a replacement decal mesh is
installed. -/
theorem C4_counterexample :
    demoState.activeTexture = some demoTexture ∧
    demoTexture.image ≠ none ∧
    (updateTexture qSqrt none demoState).decalMesh ≠ none :=
  ⟨rfl, by decide, by decide⟩

/-- C4 (amended): calling `updateTexture` with a null source surface after
a prior non-null texture does not clear — it removes and disposes the
previously active decal and installs a replacement decal whose freshly
allocated texture records a null image. -/
theorem C4_null_source_replaces (fsqrt : ℚ → ℚ) (s : ConfigState)
    (fp : FrontPanel) (t0 : Texture) (hfp : s.frontPanelMesh = some fp)
    (ht : s.activeTexture = some t0) (him : t0.image ≠ none) :
    (updateTexture fsqrt none s).decalMesh = some (s.nextId + 1) ∧
    (updateTexture fsqrt none s).activeTexture = some { id := s.nextId, image := none } ∧
    (∀ g, s.decalMesh = some g → g ∈ (updateTexture fsqrt none s).disposedGeoms) := by
  rcases hd : s.decalMesh with _ | g
  · refine ⟨?_, ?_, ?_⟩
    · simp [updateTexture, removeDecals, hfp, hd]
    · simp [updateTexture, removeDecals, hfp, hd]
    · intro g hg; simp [hd] at hg
  · refine ⟨?_, ?_, ?_⟩
    · simp [updateTexture, removeDecals, hfp, hd]
    · simp [updateTexture, removeDecals, hfp, hd]
    · intro g2 hg2
      injection hg2 with h
      subst h
      simp [updateTexture, removeDecals, hfp, hd]

/-- Witness for C4 (amended) at `demoState`, whose prior texture is
non-null and whose decal geometry has id 1. -/
theorem C4_witness :
    (demoState.frontPanelMesh = some demoHitPanel ∧
     demoState.activeTexture = some demoTexture ∧
     demoTexture.image ≠ none) ∧
    ((updateTexture qSqrt none demoState).decalMesh = some (demoState.nextId + 1) ∧
     (updateTexture qSqrt none demoState).activeTexture =
       some { id := demoState.nextId, image := none } ∧
     (∀ g, demoState.decalMesh = some g →
       g ∈ (updateTexture qSqrt none demoState).disposedGeoms)) :=
  ⟨⟨rfl, rfl, by decide⟩,
   C4_null_source_replaces qSqrt demoState demoHitPanel demoTexture rfl rfl (by decide)⟩

/-- Every preset in the shipped table has a decal color multiplier of
either 1.0 or 0.9; in particular it is truthy (nonzero). -/
lemma preset_colorMult_cases (f : String) (p : FinishPreset)
    (h : FINISH_PRESETS f = some p) :
    p.engraved.colorMult = 1.0 ∨ p.engraved.colorMult = 0.9 := by
  unfold FINISH_PRESETS at h
  split at h <;> first
    | (injection h with h2; subst h2; simp)
    | exact absurd h (by simp)

/-- C1: for every finish preset and texture, the material mode controller
in printed mode sets the color map to the texture, nulls the alpha map,
and uses white color, roughness 0.4, metalness 0.0; in engraved mode it
nulls the color map, sets the alpha map to the texture, and uses base
panel color × the preset's decal colorMultiplier with the preset's decal
roughness and metalness; in every case exactly one of the two texture
channels is non-null afterwards. -/
theorem C1_material_mode_controller (s : ConfigState) (t : Texture)
    (p : FinishPreset) (fp : FrontPanel) (pm : PanelMaterial)
    (hp : FINISH_PRESETS s.currentFinish = some p)
    (hfp : s.frontPanelMesh = some fp) (hpm : fp.material = some pm) :
    (s.currentMode = "printed" →
      applyMaterialMode s t =
        { map := some t, alphaMap := none, color := Color.white
          roughness := 0.4, metalness := 0.0, needsUpdate := true }) ∧
    (s.currentMode = "engraved" →
      applyMaterialMode s t =
        { map := none, alphaMap := some t
          color := pm.color.multiplyScalar p.engraved.colorMult
          roughness := p.engraved.roughness, metalness := p.engraved.metalness
          needsUpdate := true }) ∧
    (((applyMaterialMode s t).map = none ∧ (applyMaterialMode s t).alphaMap = some t) ∨
     ((applyMaterialMode s t).map = some t ∧ (applyMaterialMode s t).alphaMap = none)) := by
  refine ⟨?_, ?_, ?_⟩
  · intro hmode
    unfold applyMaterialMode baseColorOf
    rw [hmode, hfp]
    simp [hpm]
  · intro hmode
    have hone : pm.color.multiplyScalar (1.0 : ℚ) = pm.color := by
      cases pm.color
      simp only [Color.multiplyScalar, Color.mk.injEq]
      norm_num
    unfold applyMaterialMode baseColorOf
    rw [hmode, hfp]
    rcases preset_colorMult_cases s.currentFinish p hp with h1 | h9
    · have hcond1 : ¬ (p.engraved.colorMult ≠ 0 ∧ p.engraved.colorMult ≠ 1.0) := by
        rw [h1]; norm_num
      simp [hp, hpm, hcond1, h1, hone]
    · have hcond : p.engraved.colorMult ≠ 0 ∧ p.engraved.colorMult ≠ 1.0 := by
        rw [h9]; norm_num
      simp [hp, hpm, hcond]
  · unfold applyMaterialMode
    by_cases hmode : s.currentMode = "engraved" <;> simp [hmode]

/-- Witness for C1 at the concrete state `demoState` (finish `raw`,
printed mode, panel material `demoPanelMaterial`). -/
theorem C1_witness :
    (FINISH_PRESETS demoState.currentFinish = some rawPreset ∧
     demoState.frontPanelMesh = some demoHitPanel ∧
     demoHitPanel.material = some demoPanelMaterial) ∧
    ((demoState.currentMode = "printed" →
      applyMaterialMode demoState demoTexture =
        { map := some demoTexture, alphaMap := none, color := Color.white
          roughness := 0.4, metalness := 0.0, needsUpdate := true }) ∧
     (demoState.currentMode = "engraved" →
      applyMaterialMode demoState demoTexture =
        { map := none, alphaMap := some demoTexture
          color := demoPanelMaterial.color.multiplyScalar rawPreset.engraved.colorMult
          roughness := rawPreset.engraved.roughness
          metalness := rawPreset.engraved.metalness
          needsUpdate := true }) ∧
     (((applyMaterialMode demoState demoTexture).map = none ∧
       (applyMaterialMode demoState demoTexture).alphaMap = some demoTexture) ∨
      ((applyMaterialMode demoState demoTexture).map = some demoTexture ∧
       (applyMaterialMode demoState demoTexture).alphaMap = none))) :=
  ⟨⟨rfl, rfl, rfl⟩,
   C1_material_mode_controller demoState demoTexture rawPreset demoHitPanel
     demoPanelMaterial rfl rfl rfl⟩

/-- Counterexample to C3 as stated: for the concrete no-hit mesh
`demoMissPanel` (bounding box `[0,2]³`), the fallback position is not the
offset center (center offset by +50% of width and +25% of height): the
code additionally pushes it half the depth along +Z. -/
theorem C3_counterexample :
    demoMissPanel.intersect (placementRay qSqrt demoMissPanel) = [] ∧
    (computePlacement qSqrt demoMissPanel).position ≠
      demoMissPanel.boundingBox.getCenter.add
        ⟨demoMissPanel.boundingBox.getSize.x * 0.50,
         demoMissPanel.boundingBox.getSize.y * 0.25, 0⟩ := by
  refine ⟨rfl, ?_⟩
  unfold computePlacement demoMissPanel Box3.getCenter Box3.getSize Vec3.add Vec3.sub
  intro h
  simp at h

/-- C3 (amended): for every target mesh whose cast ray intersects no
geometry, the surface locator returns, deterministically, the fallback
frame whose position is the offset center (bounding-box center offset by
+50% width and +25% height) pushed half the box depth along the fixed
projection axis +Z, and whose orientation is the fixed projection axis
itself; the recoverable warning path is taken (`warned = true`) rather
than a failure. -/
theorem C3_fallback_frame (fsqrt : ℚ → ℚ) (fp : FrontPanel)
    (h : fp.intersect (placementRay fsqrt fp) = []) :
    computePlacement fsqrt fp =
      { position :=
          ⟨fp.boundingBox.getCenter.x + fp.boundingBox.getSize.x * 0.50,
           fp.boundingBox.getCenter.y + fp.boundingBox.getSize.y * 0.25,
           fp.boundingBox.getCenter.z + fp.boundingBox.getSize.z / 2⟩
        orientation := ⟨0, 0, 1⟩
        decalSize := ⟨fp.boundingBox.getSize.x * 0.5915,
                      fp.boundingBox.getSize.y * 0.845, 0.2⟩
        warned := true } ∧
    (∀ fp2 : FrontPanel, fp2 = fp →
      computePlacement fsqrt fp2 = computePlacement fsqrt fp) := by
  constructor
  · unfold computePlacement
    rw [h]
    simp [Vec3.add]
  · intro fp2 he
    rw [he]

/-- Witness for C3 (amended) at the concrete no-hit mesh `demoMissPanel`
with the concrete square-root interpretation `qSqrt`. -/
theorem C3_witness :
    demoMissPanel.intersect (placementRay qSqrt demoMissPanel) = [] ∧
    (computePlacement qSqrt demoMissPanel =
      { position :=
          ⟨demoMissPanel.boundingBox.getCenter.x + demoMissPanel.boundingBox.getSize.x * 0.50,
           demoMissPanel.boundingBox.getCenter.y + demoMissPanel.boundingBox.getSize.y * 0.25,
           demoMissPanel.boundingBox.getCenter.z + demoMissPanel.boundingBox.getSize.z / 2⟩
        orientation := ⟨0, 0, 1⟩
        decalSize := ⟨demoMissPanel.boundingBox.getSize.x * 0.5915,
                      demoMissPanel.boundingBox.getSize.y * 0.845, 0.2⟩
        warned := true } ∧
     (∀ fp2 : FrontPanel, fp2 = demoMissPanel →
       computePlacement qSqrt fp2 = computePlacement qSqrt demoMissPanel)) :=
  ⟨rfl, C3_fallback_frame qSqrt demoMissPanel rfl⟩

/-- C9: for every target mesh whose cast ray hits, the surface locator
uses the first intersection's point as the frame position and its face
normal transformed through the mesh's world matrix (then normalized, i.e.
the world-space direction) as the frame orientation, without warning; in
particular, for the concrete panel `demoHitPanel` rotated a quarter turn
about y, the returned direction is world +X, not the local face
normal +Z. -/
theorem C9_hit_uses_world_normal (fsqrt : ℚ → ℚ) (fp : FrontPanel)
    (hit : Hit) (rest : List Hit)
    (h : fp.intersect (placementRay fsqrt fp) = hit :: rest) :
    ((computePlacement fsqrt fp).position = hit.point ∧
     (computePlacement fsqrt fp).orientation =
       (hit.faceNormal.transformDirection fsqrt fp.matrixWorld).normalize fsqrt ∧
     (computePlacement fsqrt fp).warned = false) ∧
    ((computePlacement qSqrt demoHitPanel).orientation = ⟨1, 0, 0⟩ ∧
     demoHit.faceNormal = ⟨0, 0, 1⟩ ∧
     (computePlacement qSqrt demoHitPanel).orientation ≠ demoHit.faceNormal) := by
  have hdemo : (computePlacement qSqrt demoHitPanel).orientation = ⟨1, 0, 0⟩ := by
    unfold computePlacement demoHitPanel quarterTurnY demoHit
    unfold Vec3.transformDirection Vec3.normalize Vec3.lengthSq Mat3.mulVec qSqrt
    norm_num
  refine ⟨⟨?_, ?_, ?_⟩, hdemo, rfl, ?_⟩
  · unfold computePlacement
    rw [h]
  · unfold computePlacement
    rw [h]
  · unfold computePlacement
    rw [h]
  · rw [hdemo]
    intro he
    injection he with h1 h2 h3
    norm_num at h3

/-- Witness for C9 at the quarter-turn-rotated concrete panel
`demoHitPanel`, whose raycast returns exactly `demoHit`. -/
theorem C9_witness :
    demoHitPanel.intersect (placementRay qSqrt demoHitPanel) = demoHit :: [] ∧
    (((computePlacement qSqrt demoHitPanel).position = demoHit.point ∧
      (computePlacement qSqrt demoHitPanel).orientation =
        (demoHit.faceNormal.transformDirection qSqrt demoHitPanel.matrixWorld).normalize qSqrt ∧
      (computePlacement qSqrt demoHitPanel).warned = false) ∧
     ((computePlacement qSqrt demoHitPanel).orientation = ⟨1, 0, 0⟩ ∧
      demoHit.faceNormal = ⟨0, 0, 1⟩ ∧
      (computePlacement qSqrt demoHitPanel).orientation ≠ demoHit.faceNormal)) :=
  ⟨rfl, C9_hit_uses_world_normal qSqrt demoHitPanel demoHit [] rfl⟩

/-- C5: switching finish never changes the stored mode and switching mode
never changes the stored finish identifier; and the round-trip holds —
`setMode A; setFinish F; setMode B; setFinish F` leaves the shared decal
material in the same state as `setMode B; setFinish F` directly, for every
pair of modes, every finish identifier (known or not) and every starting
state. -/
theorem C5_mode_finish_independent (A B F : String) (s : ConfigState) :
    (setFinish F s).currentMode = s.currentMode ∧
    (setMode A s).currentFinish = s.currentFinish ∧
    (setFinish F (setMode B (setFinish F (setMode A s)))).decalMaterial =
      (setFinish F (setMode B s)).decalMaterial := by
  rcases hd : s.decalMesh with _ | g <;>
    rcases ht : s.activeTexture with _ | t <;>
    rcases hF : FINISH_PRESETS F with _ | p <;>
    rcases hfp : s.frontPanelMesh with _ | fp <;>
    try rcases hm : fp.material with _ | pm
  all_goals
    first
    | simp [setMode, setFinish, applyMaterialMode, baseColorOf, hd, ht, hF, hfp, hm]
    | simp [setMode, setFinish, applyMaterialMode, baseColorOf, hd, ht, hF, hfp]

/-- C2: across every sequence of texture updates, decal replacements, mode
and finish changes from a freshly loaded model, at most one decal mesh is
attached to the scene at any time (the scene holds exactly the current
decal); every geometry allocated for an earlier update has been disposed
and detached; the current decal's geometry is never disposed (zero
disposed-but-still-referenced geometries); and no texture created for an
earlier update remains referenced by the shared material once replaced. -/
theorem C2_no_leak_across_updates (fsqrt : ℚ → ℚ) (fp : FrontPanel)
    (events : List Event) :
    (runEvents fsqrt events (initState fp)).sceneDecals.length ≤ 1 ∧
    (∀ g, g ∈ (runEvents fsqrt events (initState fp)).sceneDecals ↔
       (runEvents fsqrt events (initState fp)).decalMesh = some g) ∧
    (∀ g ∈ (runEvents fsqrt events (initState fp)).allocatedGeoms,
       (runEvents fsqrt events (initState fp)).decalMesh ≠ some g →
       g ∈ (runEvents fsqrt events (initState fp)).disposedGeoms ∧
       g ∉ (runEvents fsqrt events (initState fp)).sceneDecals) ∧
    (∀ g, (runEvents fsqrt events (initState fp)).decalMesh = some g →
       g ∉ (runEvents fsqrt events (initState fp)).disposedGeoms) ∧
    (∀ t ∈ (runEvents fsqrt events (initState fp)).allocatedTexs,
       (runEvents fsqrt events (initState fp)).activeTexture ≠ some t →
       (runEvents fsqrt events (initState fp)).decalMaterial.map ≠ some t ∧
       (runEvents fsqrt events (initState fp)).decalMaterial.alphaMap ≠ some t) := by
  have hg : GoodState (runEvents fsqrt events (initState fp)) :=
    good_runEvents fsqrt events (initState fp) (good_initState fp)
  refine ⟨hg.scene_len, hg.scene_iff, ?_, hg.current_fresh, ?_⟩
  · intro g hga hnc
    rcases hg.geom_account g hga with hcur | hdisp
    · exact absurd hcur hnc
    · refine ⟨hdisp, fun hsc => hnc ((hg.scene_iff g).mp hsc)⟩
  · intro t hta hnt
    constructor
    · intro hmap
      exact hnt (hg.map_active t hmap)
    · intro halpha
      exact hnt (hg.alpha_active t halpha)

end Craterflame
